import Mathlib

/-!
Shallow embedding of `Hermes/stats/proxy.py` (HAProxy statistics parsing).

The Python module reads one CSV snapshot of the HAProxy statistics table,
classifies each row as one of four record kinds, coerces every cell under a
three-valued semantics (value / explicitly empty / field unknown to this
HAProxy version), groups the records by proxy name and merges each group
into one `ProxyStats` aggregate.

Modelling conventions:
  * a CSV row (a `csv.DictReader` dict) is an association list from column
    name to raw cell text;
  * Python cell values are `PyValue` (integer, text, `None`, or the shared
    `UNKNOWN_VALUE` sentinel);
  * every Python exception that the parsing path can raise is a `PyError`
    constructor, and fallible code returns `Except PyError`;
  * the wall-clock timestamp (`time.mktime(datetime.utcnow().timetuple())`,
    computed once per call at line 275) is an explicit `Int` parameter;
  * the `names_mapper` collaborator is a structure of two total functions.
-/

/-- The value of one parsed cell: `int(...)` result, raw text, Python `None`
(present but empty cell), or the shared `UNKNOWN_VALUE` sentinel (column
absent from this HAProxy version's output). -/
inductive PyValue where
  | intVal (n : Int)
  | strVal (s : String)
  | noneVal
  | unknownVal
deriving DecidableEq, Repr

/-- The exceptions the parsing path can raise: `KeyError` from a dict access,
`ValueError` from `int(...)` on non-numeric text, `TypeError` from the record
constructor call (unexpected or duplicated keyword argument), and the
module's own `InvalidHAProxyStats`. -/
inductive PyError where
  | keyError (k : String)
  | valueError (s : String)
  | typeErrorUnexpectedKeyword (k : String)
  | typeErrorMultipleValues (k : String)
  | invalidHAProxyStats (proxy_name : String) (n_frontends : Nat) (n_backends : Nat)
deriving DecidableEq, Repr

/-- The four record kinds of the module: `HAProxyListenerStats`,
`HAProxyFrontendStats`, `HAProxyBackendStats`, `HAProxyServerStats`. -/
inductive StatsKind where
  | listener
  | frontend
  | backend
  | server
deriving DecidableEq, Repr

/-- `HAProxyListenerStats.__slots__`. -/
def listenerSlots : List String :=
  ["pxname", "svname", "scur", "smax", "slim", "stot", "bin", "bout",
   "dreq", "dresp", "ereq", "status", "pid", "iid", "sid", "type"]

/-- `HAProxyFrontendStats.__slots__`. -/
def frontendSlots : List String :=
  ["pxname", "svname", "scur", "smax", "slim", "stot", "bin", "bout",
   "dreq", "dresp", "ereq", "status", "pid", "iid", "type", "rate",
   "rate_lim", "rate_max", "hrsp_1xx", "hrsp_2xx", "hrsp_3xx", "hrsp_4xx",
   "hrsp_5xx", "hrsp_other", "req_rate", "req_rate_max", "req_tot",
   "comp_in", "comp_out", "comp_byp", "comp_rsp"]

/-- `HAProxyBackendStats.__slots__`. -/
def backendSlots : List String :=
  ["pxname", "svname", "qcur", "qmax", "scur", "smax", "slim", "stot",
   "bin", "bout", "dreq", "dresp", "econ", "eresp", "wretr", "wredis",
   "status", "weight", "act", "bck", "chkdown", "lastchg", "downtime",
   "pid", "iid", "lbtot", "type", "rate", "rate_max", "hrsp_1xx",
   "hrsp_2xx", "hrsp_3xx", "hrsp_4xx", "hrsp_5xx", "hrsp_other",
   "cli_abrt", "srv_abrt", "comp_in", "comp_out", "comp_byp", "comp_rsp",
   "lastsess", "qtime", "ctime", "rtime", "ttime"]

/-- `HAProxyServerStats.__slots__`; note that `unified_server_name` is the
first slot of this class. -/
def serverSlots : List String :=
  ["unified_server_name", "pxname", "svname", "qcur", "qmax", "scur",
   "smax", "slim", "stot", "bin", "bout", "dresp", "econ", "eresp",
   "wretr", "wredis", "status", "weight", "act", "bck", "chkfail",
   "chkdown", "lastchg", "downtime", "qlimit", "pid", "iid", "sid",
   "throttle", "lbtot", "tracked", "type", "rate", "rate_max",
   "check_status", "check_code", "check_duration", "hrsp_1xx", "hrsp_2xx",
   "hrsp_3xx", "hrsp_4xx", "hrsp_5xx", "hrsp_other", "hanafail",
   "cli_abrt", "srv_abrt", "lastsess", "last_chk", "last_agt", "qtime",
   "ctime", "rtime", "ttime"]

/-- `stats_type.__slots__` for each of the four classes. -/
def slotsOf : StatsKind → List String
  | .listener => listenerSlots
  | .frontend => frontendSlots
  | .backend => backendSlots
  | .server => serverSlots

/-- `ALL_HAPROXY_FIELDS`: the union (as a set) of the four slot tuples.
`List.dedup` keeps one occurrence of each name; only membership and set
difference are ever used, mirroring the Python `set`. -/
def ALL_HAPROXY_FIELDS : List String :=
  (listenerSlots ++ frontendSlots ++ backendSlots ++ serverSlots).dedup

/-- `KNOWN_NON_INTEGER_FIELDS`. -/
def KNOWN_NON_INTEGER_FIELDS : List String :=
  ["pxname", "svname", "status", "check_status", "last_chk", "last_agt"]

/-- `INTEGER_FIELDS = set(ALL_HAPROXY_FIELDS) - KNOWN_NON_INTEGER_FIELDS`. -/
def INTEGER_FIELDS : List String :=
  ALL_HAPROXY_FIELDS.filter (fun f => !KNOWN_NON_INTEGER_FIELDS.contains f)

/-- One `csv.DictReader` row: association list from column name to raw
cell text. -/
abbrev CsvRow := List (String × String)

/-- The whole parsed CSV table: `table.fieldnames` plus the data rows. -/
structure StatsCsv where
  fieldnames : List String
  rows : List CsvRow
deriving Repr

/-- The `names_mapper` collaborator: an object with total methods
`get_server_name(proxy_name, svname)` and `get_service_name(proxy_name)`. -/
structure NamesMapper where
  get_server_name : String → String → String
  get_service_name : String → String

/-- The whitespace characters stripped by Python `int`. -/
def isPySpace (c : Char) : Bool :=
  c == ' ' || c == '\t' || c == '\n' || c == '\r' || c == '\x0b' || c == '\x0c'

/-- A base-10 digit character. -/
def isDigitChar (c : Char) : Bool :=
  48 ≤ c.toNat && c.toNat ≤ 57

/-- Strip surrounding whitespace from a character list. -/
def pyTrimChars (cs : List Char) : List Char :=
  ((cs.dropWhile isPySpace).reverse.dropWhile isPySpace).reverse

/-- Decimal digits to a natural number. -/
def digitsToNat (ds : List Char) : Nat :=
  ds.foldl (fun acc c => acc * 10 + (c.toNat - 48)) 0

/-- Python `int(s)`: strips surrounding whitespace, accepts an optional
sign followed by one or more base-10 digits; anything else raises
`ValueError` (modelled as `none`). -/
def pyInt (s : String) : Option Int :=
  match pyTrimChars s.data with
  | [] => none
  | '-' :: d =>
    if !d.isEmpty && d.all isDigitChar then some (-(digitsToNat d : Int)) else none
  | '+' :: d =>
    if !d.isEmpty && d.all isDigitChar then some ((digitsToNat d : Int)) else none
  | d =>
    if d.all isDigitChar then some ((digitsToNat d : Int)) else none

/-- `ProxyStats._get_field_value(row, field_name)` (lines 237-247): the
`UNKNOWN_VALUE` sentinel when the column is absent from the row, Python
`None` when it is present but empty, `int(value)` when the field is in
`INTEGER_FIELDS` (propagating `ValueError` on non-numeric text), and the
raw text otherwise. -/
def getFieldValue (row : CsvRow) (field_name : String) : Except PyError PyValue :=
  match row.lookup field_name with
  | none => .ok .unknownVal
  | some value =>
    if value = "" then .ok .noneVal
    else if field_name ∈ INTEGER_FIELDS then
      match pyInt value with
      | some n => .ok (.intVal n)
      | none => .error (.valueError value)
    else .ok (.strVal value)

/-- One built record: its class (`stats_type`) and its attribute values. -/
structure StatRecord where
  kind : StatsKind
  fields : List (String × PyValue)
deriving DecidableEq, Repr

/-- Python dict subscript `row[k]`: `KeyError` when the column is absent. -/
def dictGet (row : CsvRow) (k : String) : Except PyError String :=
  match row.lookup k with
  | some v => .ok v
  | none => .error (.keyError k)

/-- Row classification (lines 282-290): `FRONTEND` marker, then `BACKEND`
marker, then the truthiness of `row['qcur']` — a plain dict subscript, so a
row without a `qcur` column raises `KeyError` here. -/
def classifyRow (svname : String) (row : CsvRow) : Except PyError StatsKind :=
  if svname = "FRONTEND" then .ok .frontend
  else if svname = "BACKEND" then .ok .backend
  else do
    let q ← dictGet row "qcur"
    if q = "" then pure .listener else pure .server

/-- The record construction of lines 292-298: build `stats_values` by
coercing every slot of the classified class, then perform the call
`stats_type(unified_server_name=server_name, **stats_values)`.  The call
raises `TypeError` when `unified_server_name` is also a key of
`stats_values` (multiple values for one keyword) and when the class has no
`unified_server_name` attribute (unexpected keyword argument); otherwise
the explicit keyword overrides and the record is built. -/
def buildRecord (kind : StatsKind) (server_name : String) (row : CsvRow) :
    Except PyError StatRecord := do
  let stats_values ← (slotsOf kind).mapM (fun f => do
    let v ← getFieldValue row f
    pure (f, v))
  if (stats_values.lookup "unified_server_name").isSome then
    .error (.typeErrorMultipleValues "unified_server_name")
  else if "unified_server_name" ∈ slotsOf kind then
    .ok ⟨kind, stats_values.map
      (fun p => if p.1 = "unified_server_name" then (p.1, PyValue.strVal server_name) else p)⟩
  else
    .error (.typeErrorUnexpectedKeyword "unified_server_name")

/-- One iteration of the row loop (lines 279-299): read `pxname` and
`svname`, classify, resolve the server name through the collaborator and
build the record. -/
def processRow (mapper : NamesMapper) (row : CsvRow) :
    Except PyError (String × StatRecord) := do
  let proxy_name ← dictGet row "pxname"
  let svname ← dictGet row "svname"
  let kind ← classifyRow svname row
  let server_name := mapper.get_server_name proxy_name svname
  let stats ← buildRecord kind server_name row
  pure (proxy_name, stats)

/-- Append one record to its proxy's group, keeping group encounter order. -/
def insertGroup (acc : List (String × List StatRecord)) (k : String) (v : StatRecord) :
    List (String × List StatRecord) :=
  match acc with
  | [] => [(k, [v])]
  | (k₀, vs) :: rest =>
    if k₀ = k then (k₀, vs ++ [v]) :: rest else (k₀, vs) :: insertGroup rest k v

/-- The `parsed_objects` accumulation (line 278 and 299): group the built
records by raw proxy name, preserving row order inside each group. -/
def groupByProxy (pairs : List (String × StatRecord)) : List (String × List StatRecord) :=
  pairs.foldl (fun acc kv => insertGroup acc kv.1 kv.2) []

/-- `ProxyStats` (lines 221-235). -/
structure ProxyStats where
  name : String
  unified_service_name : String
  utc_timestamp : Int
  frontend : StatRecord
  backend : StatRecord
  servers : List StatRecord
  listeners : List StatRecord
deriving DecidableEq, Repr

/-- The merge step for one proxy group (lines 303-326): partition the
group's records by class, require exactly one frontend and one backend
(otherwise raise `InvalidHAProxyStats` with the proxy name and the two
observed counts), resolve the service name and build the aggregate stamped
with the snapshot-wide timestamp. -/
def mergeGroup (mapper : NamesMapper) (utc_timestamp : Int) (proxy_name : String)
    (recs : List StatRecord) : Except PyError ProxyStats :=
  match recs.filter (fun r => decide (r.kind = StatsKind.frontend)),
        recs.filter (fun r => decide (r.kind = StatsKind.backend)) with
  | [f], [b] =>
    .ok ⟨proxy_name, mapper.get_service_name proxy_name, utc_timestamp, f, b,
         recs.filter (fun r => decide (r.kind = StatsKind.server)),
         recs.filter (fun r => decide (r.kind = StatsKind.listener))⟩
  | fs, bs => .error (.invalidHAProxyStats proxy_name fs.length bs.length)

/-- `ProxyStats.current_proxies` (lines 249-328) after the external socket
call: process the rows in order, group by proxy name, merge every group.
`utc_timestamp` is the value computed once per call at line 275. -/
def currentProxies (csv : StatsCsv) (mapper : NamesMapper) (utc_timestamp : Int) :
    Except PyError (List ProxyStats) := do
  let pairs ← csv.rows.mapM (processRow mapper)
  let groups := groupByProxy pairs
  groups.mapM (fun g => mergeGroup mapper utc_timestamp g.1 g.2)

/-- The `missed_fields` computation of line 269, the payload of the single
compatibility warning logged once per snapshot (lines 270-273). -/
def missedFields (csv : StatsCsv) : List String :=
  ALL_HAPROXY_FIELDS.filter (fun f => !csv.fieldnames.contains f)

/-- `ProxyStats.fromdict` (lines 330-338): the body is `pass`, so the
function returns `None` for every input dictionary. -/
def ProxyStats.fromdict (_dictionary : List (String × PyValue)) : Option ProxyStats :=
  none

/-- A concrete total collaborator used by the evaluation theorems. -/
def mapper₀ : NamesMapper :=
  ⟨fun p s => p ++ "-" ++ s, fun p => p⟩

instance exceptDecEq {ε α : Type} [DecidableEq ε] [DecidableEq α] :
    DecidableEq (Except ε α) := fun a b =>
  match a, b with
  | .ok x, .ok y =>
    if h : x = y then isTrue (by rw [h]) else isFalse (by intro hh; cases hh; exact h rfl)
  | .error x, .error y =>
    if h : x = y then isTrue (by rw [h]) else isFalse (by intro hh; cases hh; exact h rfl)
  | .ok _, .error _ => isFalse (by intro hh; cases hh)
  | .error _, .ok _ => isFalse (by intro hh; cases hh)

/-- A `ProxyStats` aggregate with its capture timestamp blanked, used to
compare the outputs of two runs up to the timestamp. -/
def eraseTimestamp (p : ProxyStats) : ProxyStats :=
  ⟨p.name, p.unified_service_name, 0, p.frontend, p.backend, p.servers, p.listeners⟩

@[simp] theorem except_bind_ok_eq {ε α β : Type} (a : α) (f : α → Except ε β) :
    (Except.ok a >>= f) = f a := rfl

@[simp] theorem except_bind_error_eq {ε α β : Type} (e : ε) (f : α → Except ε β) :
    ((Except.error e : Except ε α) >>= f) = Except.error e := rfl

@[simp] theorem except_pure_eq {ε α : Type} (a : α) : (pure a : Except ε α) = Except.ok a := rfl

set_option maxRecDepth 40000

/-- The snapshot of claim C1: one proxy named app with one frontend row,
one backend row, two server rows (non-empty qcur) and one listener row
(empty qcur). -/
def snapshotC1 : StatsCsv :=
  ⟨["pxname", "svname", "qcur"],
   [[("pxname", "app"), ("svname", "FRONTEND"), ("qcur", "")],
    [("pxname", "app"), ("svname", "BACKEND"), ("qcur", "1")],
    [("pxname", "app"), ("svname", "srv1"), ("qcur", "0")],
    [("pxname", "app"), ("svname", "srv2"), ("qcur", "2")],
    [("pxname", "app"), ("svname", "sock1"), ("qcur", "")]]⟩

/-- Claim C1 (code bug): on the well-formed snapshot with one frontend, one
backend, two servers and one listener for proxy app, `current_proxies` does
not return the single aggregate the claim describes; it raises `TypeError`
while constructing the very first record, because the frontend record class
has no `unified_server_name` attribute yet receives it as a keyword. -/
theorem c1_snapshot_raises :
    currentProxies snapshotC1 mapper₀ 0
      = Except.error (PyError.typeErrorUnexpectedKeyword "unified_server_name") := by
  decide

/-- The snapshot of claim C5: proxy app with one frontend row and two
backend rows, violating the one-frontend/one-backend invariant. -/
def snapshotC5 : StatsCsv :=
  ⟨["pxname", "svname", "qcur"],
   [[("pxname", "app"), ("svname", "FRONTEND"), ("qcur", "")],
    [("pxname", "app"), ("svname", "BACKEND"), ("qcur", "1")],
    [("pxname", "app"), ("svname", "BACKEND"), ("qcur", "2")]]⟩

/-- Claim C5 (code bug): on a snapshot whose proxy group has two backends,
`current_proxies` never reaches the frontend/backend count check; it raises
`TypeError` while building the first record, so `InvalidHAProxyStats` with
the proxy name and the observed counts is not raised. -/
theorem c5_invariant_error_unreachable :
    currentProxies snapshotC5 mapper₀ 0
      = Except.error (PyError.typeErrorUnexpectedKeyword "unified_server_name")
    ∧ (Except.error (PyError.typeErrorUnexpectedKeyword "unified_server_name")
        : Except PyError (List ProxyStats))
      ≠ Except.error (PyError.invalidHAProxyStats "app" 1 2) := by
  exact ⟨by decide, by decide⟩

/-- The snapshot of claim C6: the header set is the proper subset
pxname, svname of the registry union (qcur among others is missing) and
a single listener-like row is present. -/
def snapshotC6 : StatsCsv :=
  ⟨["pxname", "svname"], [[("pxname", "app"), ("svname", "sock1")]]⟩

/-- Claim C6 (code bug): with a header set that is a proper subset of the
registry union, parsing is not warning-and-continue: the row classifier
subscripts `row['qcur']` unconditionally, so the snapshot fails with
`KeyError` even though qcur is duly listed among the missed fields of the
compatibility warning. -/
theorem c6_subset_header_fails :
    "pxname" ∈ ALL_HAPROXY_FIELDS ∧ "svname" ∈ ALL_HAPROXY_FIELDS
    ∧ "qcur" ∈ ALL_HAPROXY_FIELDS
    ∧ List.contains snapshotC6.fieldnames "qcur" = false
    ∧ "qcur" ∈ missedFields snapshotC6
    ∧ currentProxies snapshotC6 mapper₀ 0 = Except.error (PyError.keyError "qcur") := by
  refine ⟨by decide, by decide, by decide, by decide, by decide, by decide⟩

/-- The snapshot of claim C7: a single well-formed proxy group (one
frontend row and one backend row for proxy app). -/
def snapshotC7 : StatsCsv :=
  ⟨["pxname", "svname", "qcur"],
   [[("pxname", "app"), ("svname", "FRONTEND"), ("qcur", "")],
    [("pxname", "app"), ("svname", "BACKEND"), ("qcur", "")]]⟩

/-- Claim C7 (code bug): `current_proxies` does not return one aggregate
per distinct proxy name; already on a minimal well-formed snapshot it
raises `TypeError` in the record builder, so no aggregate sequence is
produced at all. -/
theorem c7_no_aggregate_per_proxy :
    currentProxies snapshotC7 mapper₀ 0
      = Except.error (PyError.typeErrorUnexpectedKeyword "unified_server_name") := by
  decide

/-- Claim C10: `ProxyStats.fromdict` has body `pass`, hence returns `None`
for every input dictionary and never constructs, validates, or fails on a
`ProxyStats` instance. -/
theorem c10_fromdict_none :
    ∀ d : List (String × PyValue), ProxyStats.fromdict d = none :=
  fun _ => rfl

/-- Claim C3, counterexample: a row without the two markers and without a
qcur column is not classified as `ListenerStats`, as the claim states;
the unconditional subscript `row['qcur']` raises `KeyError`. -/
theorem c3_absent_qcur_counterexample :
    classifyRow "sock1" [("pxname", "p"), ("svname", "sock1")]
      = Except.error (PyError.keyError "qcur")
    ∧ ((classifyRow "sock1" [("pxname", "p"), ("svname", "sock1")]
        = Except.ok StatsKind.listener) ↔ False) :=
  ⟨by decide, iff_false_intro (by decide)⟩

/-- Claim C3 as amended: classification yields `FrontendStats` exactly on
the FRONTEND marker, otherwise `BackendStats` exactly on the BACKEND
marker; for the remaining rows it yields `ServerStats` when the qcur
column is present with non-empty text, `ListenerStats` when it is present
and empty, raises `KeyError` when the column is absent, and depends on no
field other than qcur. -/
theorem c3_classifier (sv : String) (row : CsvRow) :
    (sv = "FRONTEND" → classifyRow sv row = Except.ok StatsKind.frontend)
    ∧ (classifyRow sv row = Except.ok StatsKind.frontend → sv = "FRONTEND")
    ∧ (sv ≠ "FRONTEND" → sv = "BACKEND" → classifyRow sv row = Except.ok StatsKind.backend)
    ∧ (classifyRow sv row = Except.ok StatsKind.backend → sv = "BACKEND")
    ∧ (sv ≠ "FRONTEND" → sv ≠ "BACKEND" → row.lookup "qcur" = none →
        classifyRow sv row = Except.error (PyError.keyError "qcur"))
    ∧ (∀ q, sv ≠ "FRONTEND" → sv ≠ "BACKEND" → row.lookup "qcur" = some q → q ≠ "" →
        classifyRow sv row = Except.ok StatsKind.server)
    ∧ (sv ≠ "FRONTEND" → sv ≠ "BACKEND" → row.lookup "qcur" = some "" →
        classifyRow sv row = Except.ok StatsKind.listener)
    ∧ (∀ row₂ : CsvRow, sv ≠ "FRONTEND" → sv ≠ "BACKEND" →
        row.lookup "qcur" = row₂.lookup "qcur" →
        classifyRow sv row = classifyRow sv row₂) := by
  refine ⟨?_, ?_, ?_, ?_, ?_, ?_, ?_, ?_⟩
  · intro h; simp [classifyRow, h]
  · intro h
    by_cases h1 : sv = "FRONTEND"
    · exact h1
    · exfalso
      by_cases h2 : sv = "BACKEND"
      · simp [classifyRow, h1, h2] at h
      · simp only [classifyRow, h1, h2, if_false, dictGet] at h
        rcases hq : row.lookup "qcur" with _ | q <;> rw [hq] at h <;> simp at h
        by_cases hq0 : q = "" <;> simp [hq0] at h
  · intro h1 h2; simp [classifyRow, h1, h2]
  · intro h
    by_cases h2 : sv = "BACKEND"
    · exact h2
    · exfalso
      by_cases h1 : sv = "FRONTEND"
      · simp [classifyRow, h1] at h
      · simp only [classifyRow, h1, h2, if_false, dictGet] at h
        rcases hq : row.lookup "qcur" with _ | q <;> rw [hq] at h <;> simp at h
        by_cases hq0 : q = "" <;> simp [hq0] at h
  · intro h1 h2 hq; simp [classifyRow, h1, h2, dictGet, hq]
  · intro q h1 h2 hq hq0; simp [classifyRow, h1, h2, dictGet, hq, hq0]
  · intro h1 h2 hq; simp [classifyRow, h1, h2, dictGet, hq]
  · intro row₂ h1 h2 hq
    simp only [classifyRow, h1, h2, if_false, dictGet, hq]

/-- Claim C3, witness: the amended classifier theorem applied to concrete
rows of all four shapes and to the absent-qcur shape. -/
theorem c3_classifier_witness :
    classifyRow "FRONTEND" [] = Except.ok StatsKind.frontend
    ∧ classifyRow "BACKEND" [] = Except.ok StatsKind.backend
    ∧ classifyRow "s1" [("qcur", "2")] = Except.ok StatsKind.server
    ∧ classifyRow "s1" [("qcur", "")] = Except.ok StatsKind.listener
    ∧ classifyRow "s1" [] = Except.error (PyError.keyError "qcur") :=
  ⟨(c3_classifier "FRONTEND" []).1 rfl,
   (c3_classifier "BACKEND" []).2.2.1 (by decide) rfl,
   (c3_classifier "s1" [("qcur", "2")]).2.2.2.2.2.1 "2" (by decide) (by decide) rfl (by decide),
   (c3_classifier "s1" [("qcur", "")]).2.2.2.2.2.2.1 (by decide) (by decide) rfl,
   (c3_classifier "s1" []).2.2.2.2.1 (by decide) (by decide) rfl⟩

/-- Claim C4: `_get_field_value` returns the shared `UNKNOWN_VALUE`
sentinel exactly when the column is absent from the row, Python `None`
(the explicit-empty value, distinct from both the sentinel and zero)
exactly when the column is present with empty text, the base-10 signed
integer parse when the field is present, non-empty and integer-typed
(raising `ValueError` on non-numeric text), and the raw text verbatim in
the remaining case. -/
theorem c4_get_field_value (row : CsvRow) (field_name : String) :
    (getFieldValue row field_name = Except.ok PyValue.unknownVal ↔ row.lookup field_name = none)
    ∧ (getFieldValue row field_name = Except.ok PyValue.noneVal ↔ row.lookup field_name = some "")
    ∧ (∀ v n, row.lookup field_name = some v → v ≠ "" → field_name ∈ INTEGER_FIELDS →
        pyInt v = some n → getFieldValue row field_name = Except.ok (PyValue.intVal n))
    ∧ (∀ v, row.lookup field_name = some v → v ≠ "" → field_name ∈ INTEGER_FIELDS →
        pyInt v = none → getFieldValue row field_name = Except.error (PyError.valueError v))
    ∧ (∀ v, row.lookup field_name = some v → v ≠ "" → field_name ∉ INTEGER_FIELDS →
        getFieldValue row field_name = Except.ok (PyValue.strVal v))
    ∧ (PyValue.unknownVal ≠ PyValue.noneVal ∧ PyValue.noneVal ≠ PyValue.intVal 0
        ∧ PyValue.unknownVal ≠ PyValue.intVal 0) := by
  refine ⟨?_, ?_, ?_, ?_, ?_, by decide⟩
  · cases hl : row.lookup field_name with
    | none => simp [getFieldValue, hl]
    | some v =>
      simp only [getFieldValue, hl]
      by_cases hv : v = ""
      · simp [hv]
      · by_cases hf : field_name ∈ INTEGER_FIELDS
        · cases hp : pyInt v <;> simp [hv, hf, hp]
        · simp [hv, hf]
  · cases hl : row.lookup field_name with
    | none => simp [getFieldValue, hl]
    | some v =>
      simp only [getFieldValue, hl]
      by_cases hv : v = ""
      · simp [hv]
      · by_cases hf : field_name ∈ INTEGER_FIELDS
        · cases hp : pyInt v <;> simp [hv, hf, hp, Ne.symm hv]
        · simp [hv, hf, Ne.symm hv]
  · intro v n hl hv hf hp; simp [getFieldValue, hl, hv, hf, hp]
  · intro v hl hv hf hp; simp [getFieldValue, hl, hv, hf, hp]
  · intro v hl hv hf; simp [getFieldValue, hl, hv, hf]

/-- Claim C4, witness: the coercion theorem applied to an integer-typed
field with numeric text, with non-numeric text (hard failure), and to a
textual field. -/
theorem c4_witness :
    getFieldValue [("qcur", "3")] "qcur" = Except.ok (PyValue.intVal 3)
    ∧ getFieldValue [("qcur", "x")] "qcur" = Except.error (PyError.valueError "x")
    ∧ getFieldValue [("pxname", "app")] "pxname" = Except.ok (PyValue.strVal "app") :=
  ⟨(c4_get_field_value [("qcur", "3")] "qcur").2.2.1 "3" 3 rfl (by decide) (by decide) (by decide),
   (c4_get_field_value [("qcur", "x")] "qcur").2.2.2.1 "x" rfl (by decide) (by decide) (by decide),
   (c4_get_field_value [("pxname", "app")] "pxname").2.2.2.2.1 "app" rfl (by decide) (by decide)⟩

/-- A successful `mapM` of the field-coercion function over a non-empty
slot list starts with the pair for the first slot. -/
theorem mapM_fields_head (g : String → Except PyError PyValue) (a : String) (as : List String)
    (l : List (String × PyValue))
    (h : (a :: as).mapM (fun f => do
          let v ← g f
          pure (f, v)) = Except.ok l) :
    ∃ v rest, l = (a, v) :: rest := by
  rw [List.mapM_cons] at h
  cases hg : g a with
  | error e => rw [hg] at h; simp at h
  | ok v =>
    rw [hg] at h
    simp only [except_bind_ok_eq, except_pure_eq] at h
    cases hrest : as.mapM (fun f => do
        let v ← g f
        pure (f, v)) with
    | error e =>
      simp only [except_pure_eq] at hrest
      rw [hrest] at h; simp at h
    | ok xs =>
      simp only [except_pure_eq] at hrest
      rw [hrest] at h
      simp only [except_bind_ok_eq, except_pure_eq, Except.ok.injEq] at h
      exact ⟨v, xs, h.symm⟩

/-- Claim C2 (code bug): the record builder never constructs a record of
any of the four kinds.  The call passes `unified_server_name` as an
explicit keyword on top of `**stats_values`: for `HAProxyServerStats` the
name is also the first slot, so the keyword is duplicated, and the other
three classes have no such attribute, so the keyword is unexpected; either
way the constructor call raises `TypeError` (and a failing coercion raises
`ValueError` even earlier). -/
theorem c2_builder_always_fails :
    ∀ (kind : StatsKind) (server_name : String) (row : CsvRow),
      ∃ e, buildRecord kind server_name row = Except.error e := by
  intro kind sn row
  cases h : (slotsOf kind).mapM (fun f => do
      let v ← getFieldValue row f
      pure (f, v)) with
  | error e =>
    exact ⟨e, by unfold buildRecord; rw [h]; rfl⟩
  | ok l =>
    cases kind with
    | server =>
      have hh := h
      simp only [slotsOf, serverSlots] at hh
      obtain ⟨v, rest, rfl⟩ := mapM_fields_head (getFieldValue row) _ _ l hh
      refine ⟨PyError.typeErrorMultipleValues "unified_server_name", ?_⟩
      unfold buildRecord
      rw [h]
      simp [List.lookup]
    | listener =>
      by_cases hk : (l.lookup "unified_server_name").isSome
      · exact ⟨PyError.typeErrorMultipleValues "unified_server_name", by
          unfold buildRecord; rw [h]; simp [hk]⟩
      · exact ⟨PyError.typeErrorUnexpectedKeyword "unified_server_name", by
          unfold buildRecord; rw [h]
          simp only [except_bind_ok_eq]
          rw [if_neg hk, if_neg (by decide)]⟩
    | frontend =>
      by_cases hk : (l.lookup "unified_server_name").isSome
      · exact ⟨PyError.typeErrorMultipleValues "unified_server_name", by
          unfold buildRecord; rw [h]; simp [hk]⟩
      · exact ⟨PyError.typeErrorUnexpectedKeyword "unified_server_name", by
          unfold buildRecord; rw [h]
          simp only [except_bind_ok_eq]
          rw [if_neg hk, if_neg (by decide)]⟩
    | backend =>
      by_cases hk : (l.lookup "unified_server_name").isSome
      · exact ⟨PyError.typeErrorMultipleValues "unified_server_name", by
          unfold buildRecord; rw [h]; simp [hk]⟩
      · exact ⟨PyError.typeErrorUnexpectedKeyword "unified_server_name", by
          unfold buildRecord; rw [h]
          simp only [except_bind_ok_eq]
          rw [if_neg hk, if_neg (by decide)]⟩

/-- A successful merge of one proxy group carries the timestamp it was
given. -/
theorem mergeGroup_timestamp (mapper : NamesMapper) (ts : Int) (n : String)
    (recs : List StatRecord) (p : ProxyStats)
    (h : mergeGroup mapper ts n recs = Except.ok p) : p.utc_timestamp = ts := by
  unfold mergeGroup at h
  split at h
  · cases h
    rfl
  · cases h

/-- Every aggregate produced by merging a list of proxy groups carries the
timestamp passed to the merge. -/
theorem mergeAll_timestamp (mapper : NamesMapper) (ts : Int) :
    ∀ (groups : List (String × List StatRecord)) (res : List ProxyStats),
      groups.mapM (fun g => mergeGroup mapper ts g.1 g.2) = Except.ok res →
      ∀ p ∈ res, p.utc_timestamp = ts := by
  intro groups
  induction groups with
  | nil =>
    intro res h p hp
    rw [List.mapM_nil] at h
    simp at h
    subst h
    cases hp
  | cons g gs ih =>
    intro res h p hp
    rw [List.mapM_cons] at h
    cases hm : mergeGroup mapper ts g.1 g.2 with
    | error e => rw [hm] at h; simp at h
    | ok q =>
      rw [hm] at h
      simp only [except_bind_ok_eq, except_pure_eq] at h
      cases hrest : gs.mapM (fun g => mergeGroup mapper ts g.1 g.2) with
      | error e => rw [hrest] at h; simp at h
      | ok xs =>
        rw [hrest] at h
        simp only [except_bind_ok_eq, except_pure_eq, Except.ok.injEq] at h
        subst h
        rcases hp with _ | hp'
        · exact mergeGroup_timestamp mapper ts g.1 g.2 p hm
        · exact ih xs hrest p (by assumption)

/-- Claim C8: every aggregate of a successful `current_proxies` call
carries the single per-call capture timestamp, the value computed once
before any row is processed and passed unchanged to every `ProxyStats`. -/
theorem c8_shared_timestamp (csv : StatsCsv) (mapper : NamesMapper) (ts : Int)
    (res : List ProxyStats) (h : currentProxies csv mapper ts = Except.ok res) :
    res.map ProxyStats.utc_timestamp = List.replicate res.length ts := by
  unfold currentProxies at h
  cases hrows : csv.rows.mapM (processRow mapper) with
  | error e => rw [hrows] at h; simp at h
  | ok pairs =>
    rw [hrows] at h
    simp only [except_bind_ok_eq] at h
    have hts := mergeAll_timestamp mapper ts (groupByProxy pairs) res h
    rw [List.eq_replicate_iff]
    constructor
    · simp
    · intro b hb
      obtain ⟨p, hp, rfl⟩ := List.mem_map.mp hb
      exact hts p hp

/-- Claim C8, witness: the timestamp theorem applied to a concrete
successful call. -/
theorem c8_witness :
    currentProxies ⟨[], []⟩ mapper₀ 5 = Except.ok []
    ∧ List.map ProxyStats.utc_timestamp ([] : List ProxyStats)
      = List.replicate (List.length ([] : List ProxyStats)) 5 :=
  ⟨rfl, c8_shared_timestamp ⟨[], []⟩ mapper₀ 5 [] rfl⟩

/-- Merging one group under two different timestamps gives the same result
up to the timestamp field: the error carries no timestamp and the
aggregate differs only in it. -/
theorem mergeGroup_erase (mapper : NamesMapper) (n : String) (recs : List StatRecord)
    (ts₁ ts₂ : Int) :
    Except.map eraseTimestamp (mergeGroup mapper ts₁ n recs)
      = Except.map eraseTimestamp (mergeGroup mapper ts₂ n recs) := by
  unfold mergeGroup
  generalize recs.filter (fun r => decide (r.kind = StatsKind.frontend)) = fronts
  generalize recs.filter (fun r => decide (r.kind = StatsKind.backend)) = backs
  rcases fronts with _ | ⟨f, _ | ⟨f2, fs2⟩⟩ <;>
    rcases backs with _ | ⟨b, _ | ⟨b2, bs2⟩⟩ <;>
      simp [Except.map, eraseTimestamp]

/-- Merging a whole group list under two different timestamps gives the
same result up to the timestamp fields. -/
theorem mergeAll_erase (mapper : NamesMapper) (ts₁ ts₂ : Int) :
    ∀ groups : List (String × List StatRecord),
      Except.map (List.map eraseTimestamp)
          (groups.mapM (fun g => mergeGroup mapper ts₁ g.1 g.2))
        = Except.map (List.map eraseTimestamp)
            (groups.mapM (fun g => mergeGroup mapper ts₂ g.1 g.2)) := by
  intro groups
  induction groups with
  | nil => rw [List.mapM_nil, List.mapM_nil]
  | cons g gs ih =>
    rw [List.mapM_cons, List.mapM_cons]
    have hg := mergeGroup_erase mapper g.1 g.2 ts₁ ts₂
    cases h1 : mergeGroup mapper ts₁ g.1 g.2 with
    | error e1 =>
      cases h2 : mergeGroup mapper ts₂ g.1 g.2 with
      | error e2 =>
        rw [h1, h2] at hg
        simp only [Except.map] at hg
        cases hg
        simp
      | ok q2 =>
        rw [h1, h2] at hg
        simp [Except.map] at hg
    | ok q1 =>
      cases h2 : mergeGroup mapper ts₂ g.1 g.2 with
      | error e2 =>
        rw [h1, h2] at hg
        simp [Except.map] at hg
      | ok q2 =>
        rw [h1, h2] at hg
        simp only [Except.map, Except.ok.injEq] at hg
        simp only [except_bind_ok_eq]
        cases hr1 : gs.mapM (fun g => mergeGroup mapper ts₁ g.1 g.2) with
        | error e =>
          cases hr2 : gs.mapM (fun g => mergeGroup mapper ts₂ g.1 g.2) with
          | error e2 =>
            rw [hr1, hr2] at ih
            simp only [Except.map] at ih
            cases ih
            simp
          | ok ys =>
            rw [hr1, hr2] at ih
            simp [Except.map] at ih
        | ok xs =>
          cases hr2 : gs.mapM (fun g => mergeGroup mapper ts₂ g.1 g.2) with
          | error e2 =>
            rw [hr1, hr2] at ih
            simp [Except.map] at ih
          | ok ys =>
            rw [hr1, hr2] at ih
            simp only [Except.map, Except.ok.injEq] at ih
            simp [Except.map, hg, ih]

/-- Claim C9: the parse-and-aggregate path is deterministic in everything
but the capture timestamp — two runs on the same table with the same
collaborator agree exactly once the timestamps are blanked, whether they
succeed or raise. -/
theorem c9_deterministic_modulo_timestamp (csv : StatsCsv) (mapper : NamesMapper)
    (ts₁ ts₂ : Int) :
    Except.map (List.map eraseTimestamp) (currentProxies csv mapper ts₁)
      = Except.map (List.map eraseTimestamp) (currentProxies csv mapper ts₂) := by
  unfold currentProxies
  cases hrows : csv.rows.mapM (processRow mapper) with
  | error e => rfl
  | ok pairs =>
    simp only [except_bind_ok_eq]
    exact mergeAll_erase mapper ts₁ ts₂ (groupByProxy pairs)
